import Mathlib

/-!
Shallow embedding of the per-frame level pipeline of the repository
(src/game/states/levels.py, src/game/states/enums.py, src/game/common.py).

The Level composite is a linear chain of stages; its update and draw walk the
chain base-first.  External collaborators whose sources are not part of the
repository snapshot (Portal, Checkpoint, Note, FadeTransition, ParticleManager,
Camera, MovingWall internals, background, explosion, sound icon) are modelled
from the specification, each marked in its doc comment.
-/

set_option maxHeartbeats 1000000

namespace Unnamed

/-- Enum Dimensions from src/game/states/enums.py: the only declared members
are PARALLEL_DIMENSION (value "dimension_one") and INVERTED_DIMENSION
(value "dimension_two"). -/
inductive Dimensions where
  | PARALLEL_DIMENSION
  | INVERTED_DIMENSION
deriving DecidableEq

/-- Values of the enum members, as declared in enums.py. -/
def Dimensions.value : Dimensions → String
  | .PARALLEL_DIMENSION => "dimension_one"
  | .INVERTED_DIMENSION => "dimension_two"

/-- Python repr of an enum member, as interpolated into the log message. -/
def Dimensions.pyrepr : Dimensions → String
  | .PARALLEL_DIMENSION => "Dimensions.PARALLEL_DIMENSION"
  | .INVERTED_DIMENSION => "Dimensions.INVERTED_DIMENSION"

/-- Declaration order of the enum members (iteration order of the class). -/
def Dimensions.members : List Dimensions :=
  [.PARALLEL_DIMENSION, .INVERTED_DIMENSION]

/-- Attribute lookup on the enum class: a missing member name raises
AttributeError, exactly as Python enum attribute access does. -/
def Dimensions.getattr : String → Except String Dimensions
  | "PARALLEL_DIMENSION" => .ok .PARALLEL_DIMENSION
  | "INVERTED_DIMENSION" => .ok .INVERTED_DIMENSION
  | s => .error ("AttributeError: " ++ s)

/-- Enum States from src/game/states/enums.py. -/
inductive States where
  | MAIN_MENU
  | LEVEL
deriving DecidableEq

/-- Integer rectangle mirroring pygame.Rect. -/
structure Rect where
  x : Int
  y : Int
  w : Int
  h : Int
deriving DecidableEq

/-- pygame.Rect.colliderect: strict overlap on both axes; a degenerate
rectangle collides with nothing. -/
def Rect.colliderect (a b : Rect) : Bool :=
  a.x < b.x + b.w && b.x < a.x + a.w && a.y < b.y + b.h && b.y < a.y + a.h

/-- pygame.Rect.midbottom: the midpoint of the bottom edge. -/
def Rect.midbottom (r : Rect) : Int × Int :=
  (r.x + r.w / 2, r.y + r.h)

/-- pygame.Rect.collidepoint. -/
def Rect.collidepoint (r : Rect) (p : Int × Int) : Bool :=
  r.x ≤ p.1 && p.1 < r.x + r.w && r.y ≤ p.2 && p.2 < r.y + r.h

/-- pygame event carrying a type tag and a key code. -/
structure PyEvent where
  etype : Int
  key : Int
deriving DecidableEq

/-- pygame.KEYDOWN constant. -/
def KEYDOWN : Int := 768

/-- pygame.K_5 constant: the dimension-unlock key checked in PortalStage. -/
def K_5 : Int := 53

/-- Per-frame event-info bundle (game.common.EventInfo dictionary): the keys
the level actually reads are dt, events, mouse_pos and mouse_press. -/
structure EventInfo where
  dt : Int
  events : List PyEvent
  mouse_pos : Int × Int
  mouse_press : Bool
deriving DecidableEq

/-- Opaque settings object, identified by the file it was loaded from
(load_settings is an out-of-scope key-value loader). -/
structure Settings where
  src : String
deriving DecidableEq

/-- Opaque settings loading keyed by path. -/
def load_settings (path : String) : Settings := ⟨path⟩

/-- The per-dimension settings table built in InitLevelStage:
settings[enm.value] = load_settings(SETTINGS_DIR / (enm.value ++ ".json")).
The table is never rebuilt, so it is a plain function of the dimension. -/
def settingsOf (d : Dimensions) : Settings :=
  load_settings ("settings/" ++ d.value ++ ".json")

/-- The per-dimension tile-set table built in TileStage:
tilesets[enm] = assets[enm.value]; an asset is opaque, identified by its key. -/
def tilesetOf (d : Dimensions) : String := d.value

/-- TileLayerMap.make_map: bakes a drawable surface from an optional tile-set;
the surface is opaque, identified by the tile-set it was baked from. -/
def TileLayerMap.make_map (tileset : Option String) : Option String := tileset

/-- Modelled from the spec: TextParticle from library.particles.  Position,
velocity and alpha evolve one tick per update; lifespan counts down. -/
structure TextParticle where
  pos : ℚ × ℚ
  vel : ℚ × ℚ
  alpha : ℚ
  alpha_speed : ℚ
  lifespan : Int
  text : String
deriving DecidableEq

/-- Modelled from the spec: one particle tick — position += velocity,
alpha -= alpha_speed, lifespan -= 1. -/
def TextParticle.tick (p : TextParticle) : TextParticle :=
  { p with
    pos := (p.pos.1 + p.vel.1, p.pos.2 + p.vel.2)
    alpha := p.alpha - p.alpha_speed
    lifespan := p.lifespan - 1 }

/-- Modelled from the spec: ParticleManager.update advances every particle by
one tick per update (independent of dt) and prunes particles whose lifespan
has elapsed. -/
def ParticleManager.update (ps : List TextParticle) : List TextParticle :=
  (ps.map TextParticle.tick).filter (fun p => 0 < p.lifespan)

/-- Player state: the level reads and writes position, the alive flag and the
settings object; physics internals are out of scope. -/
structure Player where
  pos : Int × Int
  vel : Int × Int
  w : Int
  h : Int
  alive : Bool
  settings : Settings
deriving DecidableEq

def Player.rect (p : Player) : Rect := ⟨p.pos.1, p.pos.2, p.w, p.h⟩

/-- The attribute read by the fall-out check in PlayerStage. -/
def Player.y (p : Player) : Int := p.pos.2

/-- The position vector used as the announcement particle position. -/
def Player.vec (p : Player) : ℚ × ℚ := ((p.pos.1 : ℚ), (p.pos.2 : ℚ))

/-- Modelled from the spec: player physics are out of scope; dt-scaled
kinematics only, never touching the alive flag or the settings object. -/
def Player.update (dt : Int) (p : Player) : Player :=
  { p with pos := (p.pos.1 + p.vel.1 * dt, p.pos.2 + p.vel.2 * dt) }

/-- Player.change_settings: swap in the new dimension settings object. -/
def Player.change_settings (s : Settings) (p : Player) : Player :=
  { p with settings := s }

/-- MovingWall enemy: the level reads and writes its settings object;
its AI internals are out of scope. -/
structure Enemy where
  pos : Int × Int
  vel : Int × Int
  settings : Settings
deriving DecidableEq

/-- Modelled from the spec: enemy physics are out of scope; dt-scaled
kinematics only, never touching the settings object. -/
def Enemy.update (dt : Int) (e : Enemy) : Enemy :=
  { e with pos := (e.pos.1 + e.vel.1 * dt, e.pos.2 + e.vel.2 * dt) }

/-- Enemy.change_settings: swap in the new dimension settings object. -/
def Enemy.change_settings (s : Settings) (e : Enemy) : Enemy :=
  { e with settings := s }

/-- Portal from game.interactables.portal (source not in the snapshot):
a target dimension, the dimension_change edge flag, the current_dimension
field the level resets each frame, and its copy of the unlock list. -/
structure Portal where
  rect : Rect
  target : Dimensions
  current_dimension : Dimensions
  dimension_change : Bool
  unlocked_dimensions : List Dimensions
deriving DecidableEq

/-- Modelled from the spec: Portal.update requests a dimension switch
(raises dimension_change and points current_dimension at the target) only
when the player interacts with it (overlap plus a key event) and the target
dimension is in the unlock list; otherwise the edge flag is lowered. -/
def Portal.update (player : Player) (ei : EventInfo) (p : Portal) : Portal :=
  let trigger := p.rect.colliderect player.rect
      && ei.events.any (fun e => e.etype == KEYDOWN)
  if trigger && p.unlocked_dimensions.contains p.target then
    { p with dimension_change := true, current_dimension := p.target }
  else
    { p with dimension_change := false }

/-- Modelled from the spec: Portal.unlock_dimension propagates the updated
unlock list onto the portal. -/
def Portal.unlock_dimension (unlocked : List Dimensions) (p : Portal) : Portal :=
  { p with unlocked_dimensions := unlocked }

/-- Checkpoint from game.interactables.checkpoint: a rectangle plus the
one-shot text_spawned flag read by CheckpointStage. -/
structure Checkpoint where
  rect : Rect
  text_spawned : Bool
deriving DecidableEq

/-- Modelled from the spec: the particle a checkpoint hands to the particle
manager when it fires. -/
def checkpointParticle (c : Checkpoint) : TextParticle :=
  { pos := ((c.rect.midbottom.1 : ℚ), (c.rect.midbottom.2 : ℚ))
    vel := (0, -3/2)
    alpha := 255
    alpha_speed := 3
    lifespan := 80
    text := "Checkpoint reached" }

/-- Modelled from the spec: Checkpoint.update marks the checkpoint spent on
its first player overlap and spawns its announcement particle; a spent
checkpoint never changes again. -/
def Checkpoint.update (player_rect : Rect) (c : Checkpoint) :
    Checkpoint × Option TextParticle :=
  if !c.text_spawned && c.rect.colliderect player_rect then
    ({ c with text_spawned := true }, some (checkpointParticle c))
  else
    (c, none)

/-- Note from game.interactables.notes: position, text payload and the
proximity-reveal flag. -/
structure Note where
  pos : Int × Int
  text : String
  shown : Bool
deriving DecidableEq

/-- Modelled from the spec: proximity reveal against the player rectangle. -/
def Note.update (player_rect : Rect) (n : Note) : Note :=
  { n with shown := (Rect.mk n.pos.1 n.pos.2 16 16).colliderect player_rect }

/-- Modelled from the spec: FadeTransition from library.transition.
fade_in selects the direction; alpha is the screen opacity driven by
speed times dt; event is true exactly on the frame a requested fade
operation completes; pending holds the fade_out_in callback payload
(the announcement particle to hand to the particle manager). -/
structure FadeTransition where
  fade_in : Bool
  speed : Int
  alpha : Int
  event : Bool
  pending : Option TextParticle
deriving DecidableEq

/-- Modelled from the spec: one transition step.  Opacity moves by
speed * dt toward open (fade_in) or closed; the event flag is raised
exactly on the frame the fade crosses fully closed or fully open; on
crossing fully closed a queued fade_out_in callback fires (the particle
is delivered) and the fade turns back in. -/
def FadeTransition.update (dt : Int) (t : FadeTransition) :
    FadeTransition × Option TextParticle :=
  let a := if t.fade_in then t.alpha - t.speed * dt else t.alpha + t.speed * dt
  let closedNow : Bool := t.alpha < 255 && 255 ≤ a
  let openNow : Bool := 0 < t.alpha && a ≤ 0
  if closedNow then
    match t.pending with
    | some p =>
        ({ t with alpha := a, event := true, pending := none, fade_in := true },
         some p)
    | none => ({ t with alpha := a, event := true }, none)
  else
    ({ t with alpha := a, event := openNow }, none)

/-- Modelled from the spec: FadeTransition.fade_out_in requests a full
out-then-in cycle whose on_finish callback fires at the fully closed
moment. -/
def FadeTransition.fade_out_in (p : TextParticle) (t : FadeTransition) :
    FadeTransition :=
  { t with fade_in := false, pending := some p }

/-- Modelled from the spec: camera follow with dt-scaled easing toward the
player rectangle. -/
structure Camera where
  x : Int
  y : Int
deriving DecidableEq

/-- Modelled from the spec: Camera.adjust_to eases toward the target by a
dt-scaled fraction of the remaining distance. -/
def Camera.adjust_to (dt : Int) (target : Rect) (c : Camera) : Camera :=
  { x := c.x + (target.x - c.x) * dt, y := c.y + (target.y - c.y) * dt }

/-- Modelled from the spec: background animation driven by elapsed time. -/
structure BackGroundEffect where
  t : Int
deriving DecidableEq

/-- Modelled from the spec: BackGroundEffect.update advances the animation
clock by the dt of the event-info bundle it is handed. -/
def BackGroundEffect.update (ei : EventInfo) (b : BackGroundEffect) :
    BackGroundEffect :=
  { t := b.t + ei.dt }

/-- Modelled from the spec: a special tile with a one-shot trigger keyed on
player overlap. -/
structure SpecialTile where
  rect : Rect
  triggered : Bool
deriving DecidableEq

/-- Modelled from the spec: special-tile trigger on player overlap. -/
def SpecialTile.update (pl : Player) (st : SpecialTile) : SpecialTile :=
  { st with triggered := st.triggered || st.rect.colliderect pl.rect }

/-- UI button; the level always holds an empty button tuple but the update
and draw fan-out over it is part of the chain. -/
structure Button where
  rect : Rect
  hovered : Bool
deriving DecidableEq

/-- Modelled from the spec: hover state from the mouse position. -/
def Button.update (mouse_pos : Int × Int) (_mouse_press : Bool) (b : Button) :
    Button :=
  { b with hovered := b.rect.collidepoint mouse_pos }

/-- Modelled from the spec: sound icon with a slider driving the volume. -/
structure SoundIcon where
  slider_value : Int
  volume : Int
deriving DecidableEq

/-- Modelled from the spec: the slider follows the mouse while pressed. -/
def SoundIcon.update (ei : EventInfo) (si : SoundIcon) : SoundIcon :=
  if ei.mouse_press then
    { slider_value := ei.mouse_pos.1, volume := ei.mouse_pos.1 }
  else si

/-- Modelled from the spec: a fire explosion effect with a dt-driven
remaining-time counter. -/
structure Explosion where
  pos : Int × Int
  frame_timer : Int
deriving DecidableEq

/-- Modelled from the spec: ExplosionManager.update advances every explosion
by dt and prunes finished ones. -/
def ExplosionManager.update (dt : Int) (es : List Explosion) : List Explosion :=
  (es.map (fun e => { e with frame_timer := e.frame_timer - dt })).filter
    (fun e => 0 < e.frame_timer)

/-- The external SAVE_DATA key-value store: the two keys the level touches. -/
structure SaveData where
  latest_checkpoint : Int × Int
  last_volume : Int
deriving DecidableEq

/-- One access to the external SAVE_DATA store, recorded by key. -/
inductive SaveAccess where
  | read (key : String)
  | write (key : String)
deriving DecidableEq

def SaveAccess.key : SaveAccess → String
  | .read k => k
  | .write k => k

def SaveAccess.isWrite : SaveAccess → Bool
  | .read _ => false
  | .write _ => true

/-- The mutable state owned by the Level composite (all stages share it). -/
structure LevelState where
  switch_info : List (String × String)
  current_dimension : Dimensions
  latest_checkpoint : Int × Int
  camera : Camera
  event_info : EventInfo
  background : BackGroundEffect
  map_surf : Option String
  transition : FadeTransition
  next_state : Option States
  dimensions_traveled : List Dimensions
  enemies : List Enemy
  portals : List Portal
  notes : List Note
  checkpoints : List Checkpoint
  particles : List TextParticle
  special_tiles : List SpecialTile
  player : Player
  unlocked_dimensions : List Dimensions
  buttons : List Button
  sound_icon : SoundIcon
  explosions : List Explosion
  log : List String
  save : SaveData
deriving DecidableEq

/-- CheckpointStage.update loop: for each checkpoint, an unspent overlapping
checkpoint records its midbottom as the new latest_checkpoint, then
Checkpoint.update runs (spending it and emitting its particle). -/
def checkpointPass (pr : Rect) (latest : Int × Int) :
    List Checkpoint → (Int × Int) × List Checkpoint × List TextParticle
  | [] => (latest, [], [])
  | c :: cs =>
      let latest1 :=
        if !c.text_spawned && c.rect.colliderect pr then c.rect.midbottom
        else latest
      let cp := Checkpoint.update pr c
      let rest := checkpointPass pr latest1 cs
      (rest.1, cp.1 :: rest.2.1, cp.2.toList ++ rest.2.2)

/-- The slice of level state the PortalStage update loop reads and writes. -/
structure PortalCtx where
  current_dimension : Dimensions
  map_surf : Option String
  player : Player
  enemies : List Enemy
  log : List String
  portals : List Portal
deriving DecidableEq

/-- One iteration of the PortalStage.update loop: a non-firing portal has its
current_dimension reset to the level dimension; a firing portal logs the
switch, retargets current_dimension, rebuilds the tile surface from the new
tile-set and pushes the new settings onto the player and every enemy.
Afterwards the portal itself updates. -/
def portalStep (ei : EventInfo) (ctx : PortalCtx) (p : Portal) : PortalCtx :=
  let st :=
    if !p.dimension_change then
      (ctx, { p with current_dimension := ctx.current_dimension })
    else
      let d := p.current_dimension
      ({ ctx with
          log := ctx.log ++ ["Changed dimension to: " ++ d.pyrepr]
          current_dimension := d
          map_surf := TileLayerMap.make_map (some (tilesetOf d))
          player := ctx.player.change_settings (settingsOf d)
          enemies := ctx.enemies.map (Enemy.change_settings (settingsOf d)) },
        p)
  let p2 := st.2.update st.1.player ei
  { st.1 with portals := st.1.portals ++ [p2] }

/-- The PortalStage.update loop over the portal collection. -/
def portalLoop (ei : EventInfo) (ctx : PortalCtx) : List Portal → PortalCtx
  | [] => ctx
  | p :: ps => portalLoop ei (portalStep ei ctx p) ps

/-- One event of the dimension-unlock loop: on the unlock key, append the
first declared dimension not yet unlocked (if any) and propagate the updated
unlock list to every portal. -/
def unlockStep (acc : List Dimensions × List Portal) (e : PyEvent) :
    List Dimensions × List Portal :=
  if e.etype == KEYDOWN && e.key == K_5 then
    let unlocked :=
      match Dimensions.members.find? (fun d => !acc.1.contains d) with
      | some d => acc.1 ++ [d]
      | none => acc.1
    (unlocked, acc.2.map (Portal.unlock_dimension unlocked))
  else acc

/-- The dimension-unlock loop over the frame's events. -/
def unlockLoop (acc : List Dimensions × List Portal) :
    List PyEvent → List Dimensions × List Portal
  | [] => acc
  | e :: es => unlockLoop (unlockStep acc e) es

/-- One Level.update, with the trace of SAVE_DATA accesses it performs.
The chain runs base-first: background (with the stale event_info stored last
frame), player physics and the fall-out death check (which persists
latest_checkpoint), special tiles, enemies, checkpoints, notes, the portal
loop and the unlock loop, camera follow, buttons and particle manager, sound
icon, explosions, and finally the fade transition with the death handoff. -/
def Level.updateT (ei : EventInfo) (s : LevelState) :
    LevelState × List SaveAccess :=
  let background := s.background.update s.event_info
  let player0 := s.player.update ei.dt
  let player1 := if player0.y > 2000 then { player0 with alive := false }
    else player0
  let save1 := if player0.y > 2000 then
      { s.save with latest_checkpoint := s.latest_checkpoint }
    else s.save
  let trace := if player0.y > 2000 then [SaveAccess.write "latest_checkpoint"]
    else ([] : List SaveAccess)
  let special_tiles := s.special_tiles.map (SpecialTile.update player1)
  let enemies1 := s.enemies.map (Enemy.update ei.dt)
  let cpass := checkpointPass player1.rect s.latest_checkpoint s.checkpoints
  let latest1 := cpass.1
  let checkpoints1 := cpass.2.1
  let cpParticles := cpass.2.2
  let notes1 := s.notes.map (Note.update player1.rect)
  let pctx := portalLoop ei
    { current_dimension := s.current_dimension
      map_surf := s.map_surf
      player := player1
      enemies := enemies1
      log := s.log
      portals := [] } s.portals
  let upair := unlockLoop (s.unlocked_dimensions, pctx.portals) ei.events
  let camera1 := s.camera.adjust_to ei.dt pctx.player.rect
  let buttons1 := s.buttons.map (Button.update ei.mouse_pos ei.mouse_press)
  let particles1 := ParticleManager.update (s.particles ++ cpParticles)
  let sound_icon1 := s.sound_icon.update ei
  let explosions1 := ExplosionManager.update ei.dt s.explosions
  let tpair := s.transition.update ei.dt
  let particles2 := particles1 ++ tpair.2.toList
  let tstep :=
    if !pctx.player.alive then
      let t1 := { tpair.1 with fade_in := false }
      (t1, if t1.event then some States.MAIN_MENU else s.next_state)
    else (tpair.1, s.next_state)
  ({ s with
      background := background
      event_info := ei
      player := pctx.player
      save := save1
      special_tiles := special_tiles
      enemies := pctx.enemies
      latest_checkpoint := latest1
      checkpoints := checkpoints1
      notes := notes1
      current_dimension := pctx.current_dimension
      map_surf := pctx.map_surf
      log := pctx.log
      portals := upair.2
      unlocked_dimensions := upair.1
      camera := camera1
      buttons := buttons1
      particles := particles2
      sound_icon := sound_icon1
      explosions := explosions1
      transition := tstep.1
      next_state := tstep.2 }, trace)

/-- Level.update as seen by the caller. -/
def Level.update (ei : EventInfo) (s : LevelState) : LevelState :=
  (Level.updateT ei s).1

/-- One contribution to the frame's draw trace, tagged by the stage category
it belongs to. -/
inductive DrawOp where
  | background
  | checkpoint
  | announcement
  | portal
  | note
  | enemy
  | tileSurface
  | player
  | button
  | particles
  | sfxIcon
  | explosions
  | transition
deriving DecidableEq

/-- The title-cased dimension name rendered into the switch announcement
(value.replace of underscores with spaces, then title case). -/
def announcementName : Dimensions → String
  | .PARALLEL_DIMENSION => "Dimension One"
  | .INVERTED_DIMENSION => "Dimension Two"

/-- The dimension-switch announcement TextParticle built in
RenderPortalStage.draw. -/
def announcementParticle (d : Dimensions) (plVec : ℚ × ℚ) : TextParticle :=
  { pos := plVec
    vel := (0, -3/2)
    alpha := 255
    alpha_speed := 3
    lifespan := 80
    text := "Switched to: " ++ announcementName d }

/-- The slice of state RenderPortalStage.draw reads and writes, plus the draw
trace accumulated so far. -/
structure DrawCtx where
  ops : List DrawOp
  traveled : List Dimensions
  transition : FadeTransition
  particles : List TextParticle

/-- One iteration of the RenderPortalStage.draw loop: a firing portal builds
its announcement particle; a first-visit dimension is added to
dimensions_traveled and the particle is gated behind a fade_out_in cycle,
otherwise it is added to the particle manager at once; then the portal
itself is drawn. -/
def portalDrawStep (plVec : ℚ × ℚ) (ctx : DrawCtx) (p : Portal) : DrawCtx :=
  if p.dimension_change then
    let tp := announcementParticle p.current_dimension plVec
    if ctx.traveled.contains p.current_dimension then
      { ctx with
          ops := ctx.ops ++ [DrawOp.announcement, DrawOp.portal]
          particles := ctx.particles ++ [tp] }
    else
      { ctx with
          ops := ctx.ops ++ [DrawOp.announcement, DrawOp.portal]
          traveled := ctx.traveled ++ [p.current_dimension]
          transition := ctx.transition.fade_out_in tp }
  else
    { ctx with ops := ctx.ops ++ [DrawOp.portal] }

/-- The RenderPortalStage.draw loop over the portal collection. -/
def portalDrawLoop (plVec : ℚ × ℚ) (ctx : DrawCtx) : List Portal → DrawCtx
  | [] => ctx
  | p :: ps => portalDrawLoop plVec (portalDrawStep plVec ctx p) ps

/-- One Level.draw, returning the frame's draw trace and the resulting level
state (RenderPortalStage.draw mutates dimensions_traveled, the transition
and the particle set; every other stage only renders). -/
def Level.drawT (s : LevelState) : List DrawOp × LevelState :=
  let ops1 := [DrawOp.background] ++ s.checkpoints.map (fun _ => DrawOp.checkpoint)
  let ctx := portalDrawLoop s.player.vec
    { ops := ops1
      traveled := s.dimensions_traveled
      transition := s.transition
      particles := s.particles } s.portals
  let ops2 := ctx.ops
      ++ s.notes.map (fun _ => DrawOp.note)
      ++ s.enemies.map (fun _ => DrawOp.enemy)
      ++ [DrawOp.tileSurface, DrawOp.player]
      ++ s.buttons.map (fun _ => DrawOp.button)
      ++ [DrawOp.particles, DrawOp.sfxIcon, DrawOp.explosions, DrawOp.transition]
  (ops2,
   { s with
      dimensions_traveled := ctx.traveled
      transition := ctx.transition
      particles := ctx.particles })

/-- An object of a tilemap object layer. -/
structure TiledObject where
  name : String
  x : Int
  y : Int
  width : Int
  height : Int
  prop_text : String
deriving DecidableEq

/-- The named object layers the level enumerates from the tilemap. -/
structure TileMapData where
  checkpoints : List TiledObject
  enemies : List TiledObject
  notes : List TiledObject
  portals : List TiledObject
  special : List SpecialTile
deriving DecidableEq

/-- Level construction (the stage-chain initializers, run base-first), with
the trace of SAVE_DATA accesses.  InitLevelStage reads latest_checkpoint;
PortalStage initializes unlocked_dimensions with the attribute lookups
Dimensions.PARALLEL_DIMENSION and Dimensions.VOLCANIC_DIMENSION, the second
of which is not a declared member, so for every input the lookup raises
AttributeError and construction fails there (the later UIStage, SFXStage,
ExplosionStage and TransitionStage initializers never run). -/
def Level.initT (switch_info : List (String × String)) (tm : TileMapData)
    (save : SaveData) : Except String LevelState × List SaveAccess :=
  let trace := [SaveAccess.read "latest_checkpoint"]
  let current_dimension := Dimensions.PARALLEL_DIMENSION
  let latest_checkpoint := save.latest_checkpoint
  let checkpoints := tm.checkpoints.map
    (fun o => Checkpoint.mk ⟨o.x, o.y, o.width, o.height⟩ false)
  let player : Player :=
    { pos := latest_checkpoint
      vel := (0, 0)
      w := 16
      h := 16
      alive := true
      settings := settingsOf current_dimension }
  let map_surf := TileLayerMap.make_map none
  let enemies := (tm.enemies.filter (fun o => o.name == "moving_wall")).map
    (fun o => Enemy.mk (o.x, o.y) (1, 0) (settingsOf current_dimension))
  let notes := tm.notes.map (fun o => Note.mk (o.x, o.y) o.prop_text false)
  match Dimensions.getattr "PARALLEL_DIMENSION",
        Dimensions.getattr "VOLCANIC_DIMENSION" with
  | .ok d1, .ok d2 =>
      let unlocked := [d1, d2]
      let portals := (tm.portals.filter (fun o => o.name == "portal")).map
        (fun o => Portal.mk ⟨o.x, o.y, o.width, o.height⟩
          Dimensions.INVERTED_DIMENSION current_dimension false unlocked)
      let trace2 := trace
        ++ [SaveAccess.read "last_volume", SaveAccess.read "last_volume"]
      (.ok
        { switch_info := []
          current_dimension := current_dimension
          latest_checkpoint := latest_checkpoint
          camera := ⟨0, 0⟩
          event_info := ⟨0, [], (0, 0), false⟩
          background := ⟨0⟩
          map_surf := map_surf
          transition :=
            { fade_in := true, speed := 4, alpha := 255, event := false,
              pending := none }
          next_state := none
          dimensions_traveled := [current_dimension]
          enemies := enemies
          portals := portals
          notes := notes
          checkpoints := checkpoints
          particles := []
          special_tiles := tm.special
          player := player
          unlocked_dimensions := unlocked
          buttons := []
          sound_icon := ⟨save.last_volume, save.last_volume⟩
          explosions := []
          log := []
          save := save }, trace2)
  | .error e, _ => (.error e, trace)
  | .ok _, .error e => (.error e, trace)

/-- The event-info bundle of an idle frame: no events, zero elapsed time. -/
def emptyEventInfo : EventInfo := ⟨0, [], (0, 0), false⟩

/-- A baseline concrete level state used to instantiate scenarios. -/
def baseState : LevelState :=
  { switch_info := []
    current_dimension := Dimensions.PARALLEL_DIMENSION
    latest_checkpoint := (0, 0)
    camera := ⟨0, 0⟩
    event_info := emptyEventInfo
    background := ⟨0⟩
    map_surf := TileLayerMap.make_map none
    transition :=
      { fade_in := true, speed := 4, alpha := 255, event := false,
        pending := none }
    next_state := none
    dimensions_traveled := [Dimensions.PARALLEL_DIMENSION]
    enemies := []
    portals := []
    notes := []
    checkpoints := []
    particles := []
    special_tiles := []
    player :=
      { pos := (0, 0), vel := (0, 0), w := 16, h := 16, alive := true,
        settings := settingsOf Dimensions.PARALLEL_DIMENSION }
    unlocked_dimensions := [Dimensions.PARALLEL_DIMENSION]
    buttons := []
    sound_icon := ⟨5, 5⟩
    explosions := []
    log := []
    save := ⟨(0, 0), 5⟩ }

/-- The draw-trace contribution of the portal collection: each firing portal
draws its announcement then its sprite, each quiet portal just its sprite. -/
def portalOpsOf : List Portal → List DrawOp
  | [] => []
  | p :: ps =>
      (if p.dimension_change then [DrawOp.announcement, DrawOp.portal]
       else [DrawOp.portal]) ++ portalOpsOf ps

/-- The portal draw loop only appends to the draw trace. -/
theorem portalDrawLoop_ops (plVec : ℚ × ℚ) (ps : List Portal) :
    ∀ ctx : DrawCtx,
      (portalDrawLoop plVec ctx ps).ops = ctx.ops ++ portalOpsOf ps := by
  induction ps with
  | nil => intro ctx; simp [portalDrawLoop, portalOpsOf]
  | cons p ps ih =>
      intro ctx
      simp only [portalDrawLoop]
      rw [ih]
      cases hd : p.dimension_change
      · simp [portalDrawStep, hd, portalOpsOf, List.append_assoc]
      · by_cases hc : p.current_dimension ∈ ctx.traveled
        · simp [portalDrawStep, hd, hc, portalOpsOf, List.append_assoc]
        · simp [portalDrawStep, hd, hc, portalOpsOf, List.append_assoc]

/-- When no portal reports a dimension change, the portal draw loop leaves
the shared state slices untouched. -/
theorem portalDrawLoop_nofire (plVec : ℚ × ℚ) (ps : List Portal) :
    ∀ ctx : DrawCtx, (∀ p ∈ ps, p.dimension_change = false) →
      (portalDrawLoop plVec ctx ps).traveled = ctx.traveled ∧
      (portalDrawLoop plVec ctx ps).transition = ctx.transition ∧
      (portalDrawLoop plVec ctx ps).particles = ctx.particles := by
  induction ps with
  | nil => intro ctx _; simp [portalDrawLoop]
  | cons p ps ih =>
      intro ctx h
      have hp : p.dimension_change = false := h p (by simp)
      have hrest : ∀ q ∈ ps, q.dimension_change = false :=
        fun q hq => h q (by simp [hq])
      simp only [portalDrawLoop]
      have := ih (portalDrawStep plVec ctx p) hrest
      simpa [portalDrawStep, hp] using this

/-- C1: constructing a Level always fails before any update or draw call:
PortalStage initializes unlocked_dimensions with
Dimensions.VOLCANIC_DIMENSION, which is not a declared member of the
Dimensions enum, so for every switch_info (and any map and save data) the
construction raises AttributeError. -/
theorem c1_construction_always_fails (si : List (String × String))
    (tm : TileMapData) (save : SaveData) :
    (Level.initT si tm save).1 =
      Except.error "AttributeError: VOLCANIC_DIMENSION" := rfl

/-- C3: one Level.draw executes the stage draw contributions in exactly the
order background, checkpoints, portals (announcement before each firing
portal sprite), notes, enemies, tile surface, player, UI buttons and
particles, SFX icon, explosions, fade transition — for every state of the
entity collections, including empty ones. -/
theorem c3_draw_order (s : LevelState) :
    (Level.drawT s).1 =
      [DrawOp.background]
      ++ s.checkpoints.map (fun _ => DrawOp.checkpoint)
      ++ portalOpsOf s.portals
      ++ s.notes.map (fun _ => DrawOp.note)
      ++ s.enemies.map (fun _ => DrawOp.enemy)
      ++ [DrawOp.tileSurface, DrawOp.player]
      ++ s.buttons.map (fun _ => DrawOp.button)
      ++ [DrawOp.particles, DrawOp.sfxIcon, DrawOp.explosions,
          DrawOp.transition] := by
  simp only [Level.drawT]
  rw [portalDrawLoop_ops]
  try simp [List.append_assoc]

/-- C7 counterexample: a state whose single portal reports a dimension
change into a not-yet-visited dimension; drawing this frame mutates
dimensions_traveled (and the transition), so Level.draw does not leave the
level-owned state unchanged. -/
def c7ExampleState : LevelState :=
  { baseState with
      portals :=
        [{ rect := ⟨0, 0, 16, 16⟩
           target := Dimensions.INVERTED_DIMENSION
           current_dimension := Dimensions.INVERTED_DIMENSION
           dimension_change := true
           unlocked_dimensions :=
             [Dimensions.PARALLEL_DIMENSION,
              Dimensions.INVERTED_DIMENSION] }] }

/-- C7 is false as stated: at this concrete state one Level.draw call
changes the level-owned state (dimensions_traveled grows and the transition
acquires a pending fade-out cycle). -/
theorem c7_draw_mutates_state_cex :
    (Level.drawT c7ExampleState).2 ≠ c7ExampleState := by decide

/-- C7 amended: Level.draw leaves all level-owned state unchanged on every
frame in which no portal reports a dimension change; only the
dimension-switch announcement path of the portal draw stage mutates state
(dimensions_traveled, the transition, the particle set). -/
theorem c7_draw_pure_when_no_portal_fires (s : LevelState)
    (h : ∀ p ∈ s.portals, p.dimension_change = false) :
    (Level.drawT s).2 = s := by
  have h3 := portalDrawLoop_nofire s.player.vec s.portals
    { ops := [DrawOp.background] ++ s.checkpoints.map (fun _ => DrawOp.checkpoint)
      traveled := s.dimensions_traveled
      transition := s.transition
      particles := s.particles } h
  simp only [Level.drawT, h3.1, h3.2.1, h3.2.2]
  try rfl

/-- C7 amendment witness: a concrete quiet frame where draw is a no-op on
the state. -/
theorem c7_draw_pure_witness :
    (∀ p ∈ baseState.portals, p.dimension_change = false) ∧
    (Level.drawT baseState).2 = baseState :=
  ⟨by decide, c7_draw_pure_when_no_portal_fires baseState (by decide)⟩

/-- C8: the latest_checkpoint key of the external SAVE_DATA store is read
exactly once, during construction, and during an update it is written
exactly when the fall-out death check fires (and then with the level's
latest_checkpoint value); no other access to that key exists in the
per-frame path, and the draw path performs no store access at all. -/
theorem c8_save_data_discipline :
    (∀ (si : List (String × String)) (tm : TileMapData) (save : SaveData),
      ((Level.initT si tm save).2).filter
          (fun a => a.key == "latest_checkpoint") =
        [SaveAccess.read "latest_checkpoint"]) ∧
    (∀ (ei : EventInfo) (s : LevelState),
      (Level.updateT ei s).2 =
        if (s.player.update ei.dt).y > 2000 then
          [SaveAccess.write "latest_checkpoint"]
        else []) ∧
    (∀ (ei : EventInfo) (s : LevelState),
      ((Level.updateT ei s).1).save =
        if (s.player.update ei.dt).y > 2000 then
          { s.save with latest_checkpoint := s.latest_checkpoint }
        else s.save) := by
  exact ⟨fun si tm save => rfl, fun ei s => rfl, fun ei s => rfl⟩

/-- The dimension-switch postcondition on the portal-loop context slice. -/
def firedProps (d : Dimensions) (ctx : PortalCtx) : Prop :=
  ctx.current_dimension = d ∧
  ctx.map_surf = TileLayerMap.make_map (some (tilesetOf d)) ∧
  ctx.player.settings = settingsOf d ∧
  (∀ e ∈ ctx.enemies, e.settings = settingsOf d) ∧
  ("Changed dimension to: " ++ d.pyrepr) ∈ ctx.log

/-- One portal-loop iteration establishes or preserves the dimension-switch
postcondition when every firing portal targets d. -/
theorem portalStep_props (ei : EventInfo) (ctx : PortalCtx) (p : Portal)
    (d : Dimensions) (hp : p.dimension_change = true → p.current_dimension = d)
    (hprops : firedProps d ctx) : firedProps d (portalStep ei ctx p) := by
  cases hd : p.dimension_change
  · obtain ⟨h1, h2, h3, h4, h5⟩ := hprops
    exact ⟨by simpa [portalStep, hd] using h1,
           by simpa [portalStep, hd] using h2,
           by simpa [portalStep, hd] using h3,
           by simpa [portalStep, hd] using h4,
           by simpa [portalStep, hd] using h5⟩
  · have hcur := hp hd
    refine ⟨?_, ?_, ?_, ?_, ?_⟩ <;>
      simp [portalStep, hd, hcur, firedProps, Player.change_settings,
        Enemy.change_settings, List.mem_map]

/-- The portal loop preserves the dimension-switch postcondition when every
firing portal in the remainder targets d. -/
theorem portalLoop_fire_post (ei : EventInfo) (d : Dimensions)
    (ps : List Portal) : ∀ ctx : PortalCtx,
    (∀ p ∈ ps, p.dimension_change = true → p.current_dimension = d) →
    firedProps d ctx → firedProps d (portalLoop ei ctx ps) := by
  induction ps with
  | nil => intro ctx _ h; simpa [portalLoop] using h
  | cons p ps ih =>
      intro ctx hall hprops
      simp only [portalLoop]
      exact ih (portalStep ei ctx p) (fun q hq => hall q (by simp [hq]))
        (portalStep_props ei ctx p d (hall p (by simp)) hprops)

/-- If some portal in the list fires and every firing portal targets d, the
portal loop ends with the dimension-switch postcondition. -/
theorem portalLoop_fire (ei : EventInfo) (d : Dimensions)
    (ps : List Portal) : ∀ ctx : PortalCtx,
    (∀ p ∈ ps, p.dimension_change = true → p.current_dimension = d) →
    (∃ p ∈ ps, p.dimension_change = true) →
    firedProps d (portalLoop ei ctx ps) := by
  induction ps with
  | nil => intro ctx _ h; exact absurd h (by simp)
  | cons p ps ih =>
      intro ctx hall hsome
      cases hd : p.dimension_change
      · obtain ⟨q, hq, hqd⟩ := hsome
        rcases List.mem_cons.mp hq with rfl | hq2
        · rw [hd] at hqd; exact absurd hqd (by simp)
        · simp only [portalLoop]
          exact ih (portalStep ei ctx p) (fun r hr => hall r (by simp [hr]))
            ⟨q, hq2, hqd⟩
      · simp only [portalLoop]
        refine portalLoop_fire_post ei d ps (portalStep ei ctx p)
          (fun r hr => hall r (by simp [hr])) ?_
        have hcur := hall p (by simp) hd
        refine ⟨?_, ?_, ?_, ?_, ?_⟩ <;>
          simp [portalStep, hd, hcur, Player.change_settings,
            Enemy.change_settings, List.mem_map]

/-- C2: on any frame in which some portal reports dimension_change (all
firing portals targeting d), that same update sets current_dimension to d,
rebuilds the tile surface from the tile-set of d, applies the settings
object of d to the player and to every enemy, and logs the transition. -/
theorem c2_dimension_switch_effects (s : LevelState) (ei : EventInfo)
    (d : Dimensions)
    (hall : ∀ p ∈ s.portals, p.dimension_change = true →
      p.current_dimension = d)
    (hsome : ∃ p ∈ s.portals, p.dimension_change = true) :
    (Level.update ei s).current_dimension = d ∧
    (Level.update ei s).map_surf = TileLayerMap.make_map (some (tilesetOf d)) ∧
    (Level.update ei s).player.settings = settingsOf d ∧
    (∀ e ∈ (Level.update ei s).enemies, e.settings = settingsOf d) ∧
    ("Changed dimension to: " ++ d.pyrepr) ∈ (Level.update ei s).log := by
  simp only [Level.update, Level.updateT]
  refine ⟨(portalLoop_fire ei d s.portals _ hall hsome).1,
    (portalLoop_fire ei d s.portals _ hall hsome).2.1,
    (portalLoop_fire ei d s.portals _ hall hsome).2.2.1,
    fun e he => (portalLoop_fire ei d s.portals _ hall hsome).2.2.2.1 e he,
    (portalLoop_fire ei d s.portals _ hall hsome).2.2.2.2⟩

/-- C2 scenario: a single firing portal into the inverted dimension. -/
def c2ExampleState : LevelState :=
  { baseState with
      enemies := [⟨(5, 5), (0, 0), settingsOf Dimensions.PARALLEL_DIMENSION⟩]
      portals :=
        [{ rect := ⟨0, 0, 16, 16⟩
           target := Dimensions.INVERTED_DIMENSION
           current_dimension := Dimensions.INVERTED_DIMENSION
           dimension_change := true
           unlocked_dimensions :=
             [Dimensions.PARALLEL_DIMENSION,
              Dimensions.INVERTED_DIMENSION] }] }

/-- C2 witness: the dimension-switch effects at a concrete firing frame. -/
theorem c2_dimension_switch_witness :
    (∀ p ∈ c2ExampleState.portals, p.dimension_change = true →
      p.current_dimension = Dimensions.INVERTED_DIMENSION) ∧
    (∃ p ∈ c2ExampleState.portals, p.dimension_change = true) ∧
    ((Level.update emptyEventInfo c2ExampleState).current_dimension =
        Dimensions.INVERTED_DIMENSION ∧
      (Level.update emptyEventInfo c2ExampleState).map_surf =
        TileLayerMap.make_map
          (some (tilesetOf Dimensions.INVERTED_DIMENSION)) ∧
      (Level.update emptyEventInfo c2ExampleState).player.settings =
        settingsOf Dimensions.INVERTED_DIMENSION ∧
      (∀ e ∈ (Level.update emptyEventInfo c2ExampleState).enemies,
        e.settings = settingsOf Dimensions.INVERTED_DIMENSION) ∧
      ("Changed dimension to: " ++ Dimensions.INVERTED_DIMENSION.pyrepr) ∈
        (Level.update emptyEventInfo c2ExampleState).log) :=
  ⟨by decide, by decide,
   c2_dimension_switch_effects c2ExampleState emptyEventInfo
     Dimensions.INVERTED_DIMENSION (by decide) (by decide)⟩

/-- A quiet portal loop leaves the level dimension unchanged. -/
theorem portalLoop_locked_dim (ei : EventInfo) (ps : List Portal) :
    ∀ ctx : PortalCtx, (∀ p ∈ ps, p.dimension_change = false) →
      (portalLoop ei ctx ps).current_dimension = ctx.current_dimension := by
  induction ps with
  | nil => intro ctx _; simp [portalLoop]
  | cons p ps ih =>
      intro ctx h
      have hd : p.dimension_change = false := h p (by simp)
      simp only [portalLoop]
      rw [ih (portalStep ei ctx p) (fun q hq => h q (by simp [hq]))]
      simp [portalStep, hd]

/-- A portal whose own unlock list lacks its target leaves the loop with its
dimension_change flag lowered. -/
theorem portal_update_locked (pl : Player) (ei : EventInfo) (p : Portal)
    (h : p.unlocked_dimensions.contains p.target = false) :
    (Portal.update pl ei p).dimension_change = false := by
  have h2 : p.target ∉ p.unlocked_dimensions := by simpa using h
  simp [Portal.update, h2]

/-- The portal loop body always appends exactly one portal: the result of
Portal.update on either the reset portal or the firing portal, both of which
keep the original unlock list and target. -/
theorem portalStep_portals (ei : EventInfo) (ctx : PortalCtx) (p : Portal) :
    ∃ pl p', (portalStep ei ctx p).portals =
        ctx.portals ++ [Portal.update pl ei p'] ∧
      p'.unlocked_dimensions = p.unlocked_dimensions ∧
      p'.target = p.target := by
  cases hd : p.dimension_change
  · exact ⟨ctx.player, { p with current_dimension := ctx.current_dimension },
      by simp [portalStep, hd], rfl, rfl⟩
  · exact ⟨Player.change_settings (settingsOf p.current_dimension) ctx.player,
      p, by simp [portalStep, hd], rfl, rfl⟩

/-- Every portal emitted by the portal loop over locked portals has its
dimension_change flag lowered (or was already in the accumulator). -/
theorem portalLoop_locked_flags (ei : EventInfo) (ps : List Portal) :
    ∀ ctx : PortalCtx,
      (∀ p ∈ ps, p.unlocked_dimensions.contains p.target = false) →
      ∀ q ∈ (portalLoop ei ctx ps).portals,
        q ∈ ctx.portals ∨ q.dimension_change = false := by
  induction ps with
  | nil => intro ctx _ q hq; exact Or.inl (by simpa [portalLoop] using hq)
  | cons p ps ih =>
      intro ctx h q hq
      have hp : p.unlocked_dimensions.contains p.target = false := h p (by simp)
      simp only [portalLoop] at hq
      rcases ih (portalStep ei ctx p) (fun r hr => h r (by simp [hr])) q hq with
        hin | hfl
      · obtain ⟨pl, p', heq, hu, ht⟩ := portalStep_portals ei ctx p
        rw [heq] at hin
        rcases List.mem_append.mp hin with hin2 | hin2
        · exact Or.inl hin2
        · have hq2 : q = Portal.update pl ei p' := by simpa using hin2
          rw [hq2]
          exact Or.inr (portal_update_locked pl ei p' (by rw [hu, ht]; exact hp))
      · exact Or.inr hfl

/-- The unlock loop only remaps portals through unlock_dimension, which
preserves a lowered dimension_change flag. -/
theorem unlockLoop_flags (es : List PyEvent) :
    ∀ acc : List Dimensions × List Portal,
      (∀ q ∈ acc.2, q.dimension_change = false) →
      ∀ q ∈ (unlockLoop acc es).2, q.dimension_change = false := by
  induction es with
  | nil => intro acc h q hq; exact h q (by simpa [unlockLoop] using hq)
  | cons e es ih =>
      intro acc h q hq
      simp only [unlockLoop] at hq
      refine ih (unlockStep acc e) ?_ q hq
      intro r hr
      by_cases hc : (e.etype == KEYDOWN && e.key == K_5) = true
      · simp only [unlockStep, hc, if_true] at hr
        obtain ⟨r0, hr0, hr0eq⟩ := List.mem_map.mp hr
        rw [← hr0eq]
        simpa [Portal.unlock_dimension] using h r0 hr0
      · simp only [unlockStep, hc, if_false] at hr
        exact h r hr

/-- C4: a portal whose target dimension is not in its unlock list never
fires: with every portal locked and no switch pending, an update (with any
events, including interaction) leaves current_dimension unchanged and every
portal's dimension_change flag lowered, and no error is raised. -/
theorem c4_locked_portal_ignored (s : LevelState) (ei : EventInfo)
    (hflags : ∀ p ∈ s.portals, p.dimension_change = false)
    (hlocked : ∀ p ∈ s.portals, p.target ∉ p.unlocked_dimensions) :
    (Level.update ei s).current_dimension = s.current_dimension ∧
    ∀ q ∈ (Level.update ei s).portals, q.dimension_change = false := by
  have hlocked2 : ∀ p ∈ s.portals,
      p.unlocked_dimensions.contains p.target = false := fun p hp => by
    simpa using hlocked p hp
  constructor
  · simp only [Level.update, Level.updateT]
    exact portalLoop_locked_dim ei s.portals _ hflags
  · intro q hq
    simp only [Level.update, Level.updateT] at hq
    refine unlockLoop_flags ei.events _ ?_ q hq
    intro r hr
    rcases portalLoop_locked_flags ei s.portals _ hlocked2 r hr with h | h
    · simp at h
    · exact h

/-- C4 scenario: a portal targeting the locked inverted dimension, with the
player standing on it and pressing a key. -/
def c4ExampleState : LevelState :=
  { baseState with
      portals :=
        [{ rect := ⟨0, 0, 16, 16⟩
           target := Dimensions.INVERTED_DIMENSION
           current_dimension := Dimensions.PARALLEL_DIMENSION
           dimension_change := false
           unlocked_dimensions := [Dimensions.PARALLEL_DIMENSION] }] }

/-- C4 witness: triggering the locked portal at a concrete frame leaves the
dimension unchanged and the portal quiet. -/
theorem c4_locked_portal_witness :
    (∀ p ∈ c4ExampleState.portals, p.dimension_change = false) ∧
    (∀ p ∈ c4ExampleState.portals, p.target ∉ p.unlocked_dimensions) ∧
    ((Level.update ⟨0, [⟨KEYDOWN, 101⟩], (0, 0), false⟩
        c4ExampleState).current_dimension =
      c4ExampleState.current_dimension ∧
    ∀ q ∈ (Level.update ⟨0, [⟨KEYDOWN, 101⟩], (0, 0), false⟩
        c4ExampleState).portals, q.dimension_change = false) :=
  ⟨by decide, by decide,
   c4_locked_portal_ignored c4ExampleState ⟨0, [⟨KEYDOWN, 101⟩], (0, 0), false⟩
     (by decide) (by decide)⟩

/-- The unlock list after one unlock event: the first declared dimension not
yet unlocked is appended, or nothing when every dimension is unlocked. -/
def nextUnlockList (u : List Dimensions) : List Dimensions :=
  match Dimensions.members.find? (fun d => !u.contains d) with
  | some d => u ++ [d]
  | none => u

/-- C9: a frame whose event list is exactly one unlock-dimension key event
appends the next dimension in declaration order that is not yet unlocked
(at most one; none when all are unlocked) and propagates the updated unlock
list to every portal. -/
theorem c9_unlock_event (s : LevelState) (ei : EventInfo)
    (h : ei.events = [⟨KEYDOWN, K_5⟩]) :
    (Level.update ei s).unlocked_dimensions =
      nextUnlockList s.unlocked_dimensions ∧
    ∀ q ∈ (Level.update ei s).portals,
      q.unlocked_dimensions = nextUnlockList s.unlocked_dimensions := by
  have hcond : (((⟨KEYDOWN, K_5⟩ : PyEvent).etype == KEYDOWN) &&
      ((⟨KEYDOWN, K_5⟩ : PyEvent).key == K_5)) = true := by decide
  constructor
  · simp only [Level.update, Level.updateT, h]
    simp [unlockLoop, unlockStep, hcond, nextUnlockList]
  · intro q hq
    simp only [Level.update, Level.updateT, h] at hq
    simp only [unlockLoop, unlockStep, hcond, if_true] at hq
    obtain ⟨r, _, hr⟩ := List.mem_map.mp hq
    rw [← hr]
    simp [Portal.unlock_dimension, nextUnlockList]

/-- C9 scenario state: one portal, only the parallel dimension unlocked. -/
def c9ExampleState : LevelState :=
  { baseState with
      portals :=
        [{ rect := ⟨100, 100, 16, 16⟩
           target := Dimensions.INVERTED_DIMENSION
           current_dimension := Dimensions.PARALLEL_DIMENSION
           dimension_change := false
           unlocked_dimensions := [Dimensions.PARALLEL_DIMENSION] }] }

/-- C9 scenario event bundle: exactly one unlock key event. -/
def c9EventInfo : EventInfo := ⟨0, [⟨KEYDOWN, K_5⟩], (0, 0), false⟩

/-- C9 witness: from the unlock list holding only the parallel dimension,
one unlock event yields parallel-then-inverted (propagated to the portal),
and a second unlock event leaves the list unchanged. -/
theorem c9_unlock_event_witness :
    c9EventInfo.events = [⟨KEYDOWN, K_5⟩] ∧
    (Level.update c9EventInfo c9ExampleState).unlocked_dimensions =
      [Dimensions.PARALLEL_DIMENSION, Dimensions.INVERTED_DIMENSION] ∧
    (∀ q ∈ (Level.update c9EventInfo c9ExampleState).portals,
      q.unlocked_dimensions =
        [Dimensions.PARALLEL_DIMENSION, Dimensions.INVERTED_DIMENSION]) ∧
    (Level.update c9EventInfo
        (Level.update c9EventInfo c9ExampleState)).unlocked_dimensions =
      [Dimensions.PARALLEL_DIMENSION, Dimensions.INVERTED_DIMENSION] := by
  have h1 := c9_unlock_event c9ExampleState c9EventInfo rfl
  have h2 := c9_unlock_event (Level.update c9EventInfo c9ExampleState)
    c9EventInfo rfl
  refine ⟨rfl, ?_, ?_, ?_⟩
  · rw [h1.1]; decide
  · intro q hq
    rw [h1.2 q hq]; decide
  · rw [h2.1, h1.1]; decide

/-- A pass over all-spent checkpoints changes nothing and spawns nothing. -/
theorem checkpointPass_allSpent (pr : Rect) (cs : List Checkpoint) :
    ∀ latest : Int × Int, (∀ c ∈ cs, c.text_spawned = true) →
      checkpointPass pr latest cs = (latest, cs, []) := by
  induction cs with
  | nil => intro latest _; simp [checkpointPass]
  | cons c cs ih =>
      intro latest h
      have hc : c.text_spawned = true := h c (by simp)
      simp [checkpointPass, Checkpoint.update, hc,
        ih latest (fun d hd => h d (by simp [hd]))]

/-- The checkpoint pass returns exactly the per-checkpoint updates. -/
theorem checkpointPass_checkpoints (pr : Rect) (cs : List Checkpoint) :
    ∀ latest : Int × Int, (checkpointPass pr latest cs).2.1 =
      cs.map (fun c => (Checkpoint.update pr c).1) := by
  induction cs with
  | nil => intro latest; simp [checkpointPass]
  | cons c cs ih => intro latest; simp [checkpointPass, ih]

/-- A spent checkpoint stays spent through Checkpoint.update. -/
theorem checkpoint_update_spent_mono (pr : Rect) (c : Checkpoint)
    (h : c.text_spawned = true) :
    (Checkpoint.update pr c).1.text_spawned = true := by
  simp [Checkpoint.update, h]

/-- A singleton pass over an unspent overlapped checkpoint captures its
midbottom, spends it and spawns its particle. -/
theorem checkpointPass_single_hit (pr : Rect) (latest : Int × Int)
    (c : Checkpoint) (h1 : c.text_spawned = false)
    (h2 : c.rect.colliderect pr = true) :
    checkpointPass pr latest [c] =
      (c.rect.midbottom, [{ c with text_spawned := true }],
       [checkpointParticle c]) := by
  simp [checkpointPass, Checkpoint.update, h1, h2]

/-- The rectangle of the player is unchanged by the fall-out death branch. -/
theorem deathBranch_rect (p : Player) :
    (if p.y > 2000 then ({ p with alive := false } : Player) else p).rect =
      p.rect := by
  split <;> rfl

/-- The latest-checkpoint field and checkpoint collection after one update
are exactly the outputs of the checkpoint pass against the moved player. -/
theorem update_checkpoint_fields (ei : EventInfo) (s : LevelState) :
    (Level.update ei s).latest_checkpoint =
      (checkpointPass (s.player.update ei.dt).rect s.latest_checkpoint
        s.checkpoints).1 ∧
    (Level.update ei s).checkpoints =
      (checkpointPass (s.player.update ei.dt).rect s.latest_checkpoint
        s.checkpoints).2.1 := by
  simp only [Level.update, Level.updateT]
  rw [deathBranch_rect]
  exact ⟨rfl, rfl⟩

/-- C6: the first frame in which the player overlaps an unspent checkpoint
records that checkpoint's midbottom anchor as latest_checkpoint and marks
it spent; spent checkpoints never un-spend across any update, a state whose
checkpoints are all spent never changes latest_checkpoint again, and in
particular a second overlapping frame leaves the captured anchor intact. -/
theorem c6_checkpoint_one_shot (s : LevelState) (ei1 ei2 : EventInfo)
    (c : Checkpoint) (hcs : s.checkpoints = [c])
    (hunspent : c.text_spawned = false)
    (hoverlap : c.rect.colliderect (s.player.update ei1.dt).rect = true) :
    ((Level.update ei1 s).latest_checkpoint = c.rect.midbottom ∧
     ∀ c1 ∈ (Level.update ei1 s).checkpoints, c1.text_spawned = true) ∧
    (∀ (t : LevelState) (ei' : EventInfo),
      List.Forall₂ (fun a b => a.text_spawned = true → b.text_spawned = true)
        t.checkpoints (Level.update ei' t).checkpoints) ∧
    (∀ (t : LevelState) (ei' : EventInfo),
      (∀ c' ∈ t.checkpoints, c'.text_spawned = true) →
      (Level.update ei' t).latest_checkpoint = t.latest_checkpoint) ∧
    (Level.update ei2 (Level.update ei1 s)).latest_checkpoint =
      c.rect.midbottom := by
  have hfields1 := update_checkpoint_fields ei1 s
  have hpass := checkpointPass_single_hit (s.player.update ei1.dt).rect
    s.latest_checkpoint c hunspent hoverlap
  have hlatest1 : (Level.update ei1 s).latest_checkpoint = c.rect.midbottom := by
    rw [hfields1.1, hcs, hpass]
  have hcps1 : (Level.update ei1 s).checkpoints =
      [{ c with text_spawned := true }] := by
    rw [hfields1.2, hcs, hpass]
  have hmono : ∀ (t : LevelState) (ei' : EventInfo),
      List.Forall₂ (fun a b => a.text_spawned = true → b.text_spawned = true)
        t.checkpoints (Level.update ei' t).checkpoints := by
    intro t ei'
    rw [(update_checkpoint_fields ei' t).2, checkpointPass_checkpoints]
    rw [List.forall₂_map_right_iff]
    exact List.forall₂_same.mpr
      (fun x _ hx => checkpoint_update_spent_mono _ x hx)
  have hstable : ∀ (t : LevelState) (ei' : EventInfo),
      (∀ c' ∈ t.checkpoints, c'.text_spawned = true) →
      (Level.update ei' t).latest_checkpoint = t.latest_checkpoint := by
    intro t ei' hall
    rw [(update_checkpoint_fields ei' t).1,
      checkpointPass_allSpent _ _ _ hall]
  refine ⟨⟨hlatest1, ?_⟩, hmono, hstable, ?_⟩
  · intro c1 hc1
    rw [hcps1] at hc1
    simp only [List.mem_singleton] at hc1
    rw [hc1]
  · rw [hstable (Level.update ei1 s) ei2 ?_, hlatest1]
    intro c' hc'
    rw [hcps1] at hc'
    simp only [List.mem_singleton] at hc'
    rw [hc']

/-- C6 scenario: a checkpoint whose midbottom anchor is (100, 50), overlapped
by the player. -/
def c6ExampleState : LevelState :=
  { baseState with
      checkpoints := [{ rect := ⟨92, 34, 16, 16⟩, text_spawned := false }]
      player := { baseState.player with pos := (92, 34) } }

/-- C6 witness: the first overlap captures (100, 50) and spends the
checkpoint; the second frame leaves the capture unchanged. -/
theorem c6_checkpoint_one_shot_witness :
    c6ExampleState.checkpoints =
      [{ rect := ⟨92, 34, 16, 16⟩, text_spawned := false }] ∧
    (({ rect := ⟨92, 34, 16, 16⟩, text_spawned := false } :
        Checkpoint).text_spawned = false) ∧
    (Rect.colliderect ⟨92, 34, 16, 16⟩
      (c6ExampleState.player.update emptyEventInfo.dt).rect = true) ∧
    (Level.update emptyEventInfo c6ExampleState).latest_checkpoint =
      (100, 50) ∧
    (Level.update emptyEventInfo
        (Level.update emptyEventInfo c6ExampleState)).latest_checkpoint =
      (100, 50) := by
  have h := c6_checkpoint_one_shot c6ExampleState emptyEventInfo emptyEventInfo
    { rect := ⟨92, 34, 16, 16⟩, text_spawned := false }
    (by decide) (by decide) (by decide)
  exact ⟨by decide, by decide, by decide, h.1.1, h.2.2.2⟩

/-- The portal loop never changes whether the player is alive (only
change_settings is ever applied to the player there). -/
theorem portalLoop_alive (ei : EventInfo) (ps : List Portal) :
    ∀ ctx : PortalCtx,
      (portalLoop ei ctx ps).player.alive = ctx.player.alive := by
  induction ps with
  | nil => intro ctx; simp [portalLoop]
  | cons p ps ih =>
      intro ctx
      simp only [portalLoop]
      rw [ih]
      cases hd : p.dimension_change <;>
        simp [portalStep, hd, Player.change_settings]

/-- The player's alive flag after one update: lowered by the fall-out death
check, otherwise carried over; it is never raised. -/
theorem update_player_alive (ei : EventInfo) (s : LevelState) :
    (Level.update ei s).player.alive =
      (if (s.player.update ei.dt).y > 2000 then false
       else s.player.alive) := by
  simp only [Level.update, Level.updateT]
  rw [portalLoop_alive]
  split <;> rfl

/-- C5: when the player's y-coordinate exceeds the fall-out threshold during
an update, that same update lowers the alive flag, immediately persists
latest_checkpoint into the save store, and forces the transition's fade_in
to false; and on any update of a dead-player state, the player stays dead
and the frame on which the transition reports its completion event sets
next_state to MAIN_MENU (the level never switches state itself, it only
exposes next_state). -/
theorem c5_death_failstate (s : LevelState) (ei : EventInfo)
    (hfall : (s.player.update ei.dt).y > 2000) :
    ((Level.update ei s).player.alive = false ∧
     (Level.update ei s).save.latest_checkpoint = s.latest_checkpoint ∧
     (Level.update ei s).transition.fade_in = false) ∧
    (∀ (t : LevelState) (ei' : EventInfo), t.player.alive = false →
      (Level.update ei' t).player.alive = false ∧
      ((Level.update ei' t).transition.event = true →
        (Level.update ei' t).next_state = some States.MAIN_MENU)) := by
  have hdead : ∀ (t : LevelState) (ei' : EventInfo), t.player.alive = false →
      (Level.update ei' t).player.alive = false := by
    intro t ei' ht
    rw [update_player_alive]
    have : (t.player.update ei'.dt).y > 2000 ∨
        ¬((t.player.update ei'.dt).y > 2000) := em _
    rcases this with h | h
    · simp [h]
    · simp [h, Player.update, ht]
  refine ⟨⟨?_, ?_, ?_⟩, fun t ei' ht => ⟨hdead t ei' ht, ?_⟩⟩
  · rw [update_player_alive]
    simp [hfall]
  · simp only [Level.update, Level.updateT]
    simp [hfall]
  · simp only [Level.update, Level.updateT]
    rw [portalLoop_alive]
    simp [hfall]
  · have halive : (Level.update ei' t).player.alive = false := hdead t ei' ht
    revert halive
    simp only [Level.update, Level.updateT]
    rw [portalLoop_alive]
    intro halive
    by_cases hb : (if (t.player.update ei'.dt).y > 2000 then
        ({ t.player.update ei'.dt with alive := false } : Player)
       else t.player.update ei'.dt).alive = true
    · simp [hb] at halive
    · simp only [Bool.not_eq_true] at hb
      simp only [hb, Bool.not_false, if_true]
      intro hev
      simp only [hev, if_true]

/-- C5 scenario: the player below the fall-out threshold. -/
def c5ExampleState : LevelState :=
  { baseState with player := { baseState.player with pos := (0, 3000) } }

/-- C5 witness: falling out at a concrete frame kills the player, persists
the checkpoint and closes the fade; completion of the fade then yields the
main-menu handoff on any dead state. -/
theorem c5_death_failstate_witness :
    ((c5ExampleState.player.update emptyEventInfo.dt).y > 2000) ∧
    (((Level.update emptyEventInfo c5ExampleState).player.alive = false ∧
      (Level.update emptyEventInfo c5ExampleState).save.latest_checkpoint =
        c5ExampleState.latest_checkpoint ∧
      (Level.update emptyEventInfo c5ExampleState).transition.fade_in =
        false) ∧
     (∀ (t : LevelState) (ei' : EventInfo), t.player.alive = false →
       (Level.update ei' t).player.alive = false ∧
       ((Level.update ei' t).transition.event = true →
         (Level.update ei' t).next_state = some States.MAIN_MENU))) :=
  ⟨by decide, c5_death_failstate c5ExampleState emptyEventInfo (by decide)⟩

/-- A zero-dt player step moves nothing. -/
theorem player_update_zero (p : Player) : p.update 0 = p := by
  simp [Player.update]

/-- A zero-dt enemy step moves nothing. -/
theorem enemy_update_zero (e : Enemy) : e.update 0 = e := by
  simp [Enemy.update]

/-- A zero-dt camera adjustment moves nothing. -/
theorem camera_adjust_zero (r : Rect) (c : Camera) :
    Camera.adjust_to 0 r c = c := by
  cases c
  simp [Camera.adjust_to]

/-- A zero-dt transition step only lowers the event flag: no crossing can
occur, so nothing is delivered and the opacity stays put. -/
theorem transition_update_zero (t : FadeTransition) :
    FadeTransition.update 0 t = ({ t with event := false }, none) := by
  have ha : (if t.fade_in then t.alpha - t.speed * 0
      else t.alpha + t.speed * 0) = t.alpha := by split <;> ring
  have hc : ¬(t.alpha < 255 ∧ 255 ≤ t.alpha) := by omega
  have ho : ¬(0 < t.alpha ∧ t.alpha ≤ 0) := by omega
  simp only [FadeTransition.update, ha, Bool.and_eq_true, decide_eq_true_eq,
    hc, ho]
  simp

/-- Mapping a pointwise-identity function is the identity. -/
theorem map_id_of {α : Type} (f : α → α) (h : ∀ a, f a = a) :
    ∀ l : List α, l.map f = l := by
  intro l
  induction l with
  | nil => simp
  | cons a l ih => simp [h, ih]

/-- Mapping a pointwise-idempotent function twice equals mapping it once. -/
theorem map_idem_of {α : Type} (f : α → α) (h : ∀ a, f (f a) = f a) :
    ∀ l : List α, (l.map f).map f = l.map f := by
  intro l
  induction l with
  | nil => simp
  | cons a l ih => simp [h, ih]

/-- Filtering twice with the same predicate equals filtering once. -/
theorem filter_idem {α : Type} (p : α → Bool) :
    ∀ l : List α, (l.filter p).filter p = l.filter p := by
  intro l
  induction l with
  | nil => simp
  | cons a l ih =>
      cases hp : p a <;> simp [List.filter_cons, hp, ih]

/-- A zero-dt explosion step only prunes finished explosions. -/
theorem explosion_update_zero (es : List Explosion) :
    ExplosionManager.update 0 es =
      es.filter (fun e => 0 < e.frame_timer) := by
  simp only [ExplosionManager.update]
  rw [map_id_of _ (fun e => by cases e <;> simp)]

/-- A checkpoint pass in which every checkpoint is spent or out of reach
changes nothing and spawns nothing. -/
theorem checkpointPass_inactive (pr : Rect) (cs : List Checkpoint) :
    ∀ latest : Int × Int,
      (∀ c ∈ cs, c.text_spawned = true ∨ c.rect.colliderect pr = false) →
      checkpointPass pr latest cs = (latest, cs, []) := by
  induction cs with
  | nil => intro latest _; simp [checkpointPass]
  | cons c cs ih =>
      intro latest h
      rcases h c (by simp) with hs | hc
      · simp [checkpointPass, Checkpoint.update, hs,
          ih latest (fun d hd => h d (by simp [hd]))]
      · simp [checkpointPass, Checkpoint.update, hc,
          ih latest (fun d hd => h d (by simp [hd]))]

/-- A quiet portal after the loop body: its current_dimension is resynced to
the level dimension and its edge flag stays lowered. -/
def resetPortal (d : Dimensions) (p : Portal) : Portal :=
  { p with current_dimension := d, dimension_change := false }

/-- With no firing portal and no input events, the portal loop only resets
each portal's current_dimension and leaves the shared context untouched. -/
theorem portalLoop_empty (ps : List Portal) :
    ∀ ctx : PortalCtx, (∀ p ∈ ps, p.dimension_change = false) →
      portalLoop emptyEventInfo ctx ps =
        { ctx with portals :=
            ctx.portals ++ ps.map (resetPortal ctx.current_dimension) } := by
  induction ps with
  | nil => intro ctx _; simp [portalLoop]
  | cons p ps ih =>
      intro ctx h
      have hd : p.dimension_change = false := h p (by simp)
      simp only [portalLoop]
      rw [ih (portalStep emptyEventInfo ctx p) (fun q hq => h q (by simp [hq]))]
      simp [portalStep, hd, Portal.update, resetPortal, emptyEventInfo,
        List.append_assoc]

theorem emptyEventInfo_dt : emptyEventInfo.dt = 0 := rfl

theorem emptyEventInfo_events : emptyEventInfo.events = [] := rfl

theorem emptyEventInfo_mouse_pos : emptyEventInfo.mouse_pos = (0, 0) := rfl

theorem emptyEventInfo_mouse_press : emptyEventInfo.mouse_press = false := rfl

/-- One idle-frame update (no events, zero dt) in closed form, for any state
whose checkpoints are spent or out of reach and whose portals are quiet:
the background advances by the stale stored dt, particles advance one tick,
finished explosions are pruned, portals resync, proximity flags recompute,
the death check fires if the player is below the threshold, and the
transition only lowers its event flag (plus fade_in when dead). -/
theorem update_empty_spec (s : LevelState)
    (h2 : ∀ c ∈ s.checkpoints, c.text_spawned = true ∨
      c.rect.colliderect s.player.rect = false)
    (h3 : ∀ p ∈ s.portals, p.dimension_change = false) :
    Level.update emptyEventInfo s =
      { s with
          background := s.background.update s.event_info
          event_info := emptyEventInfo
          player := if s.player.y > 2000 then { s.player with alive := false }
            else s.player
          save := if s.player.y > 2000 then
              { s.save with latest_checkpoint := s.latest_checkpoint }
            else s.save
          special_tiles := s.special_tiles.map (SpecialTile.update
            (if s.player.y > 2000 then { s.player with alive := false }
             else s.player))
          notes := s.notes.map (Note.update s.player.rect)
          portals := s.portals.map (resetPortal s.current_dimension)
          buttons := s.buttons.map (Button.update (0, 0) false)
          particles := ParticleManager.update s.particles
          explosions := s.explosions.filter (fun e => 0 < e.frame_timer)
          transition := if (if s.player.y > 2000 then
                ({ s.player with alive := false } : Player)
              else s.player).alive
            then { s.transition with event := false }
            else { s.transition with event := false, fade_in := false } } := by
  have hloop : ∀ ctx : PortalCtx,
      portalLoop emptyEventInfo ctx s.portals =
        { ctx with portals :=
            ctx.portals ++ s.portals.map (resetPortal ctx.current_dimension) } :=
    fun ctx => portalLoop_empty s.portals ctx h3
  have hcp : ∀ l : Int × Int,
      checkpointPass s.player.rect l s.checkpoints = (l, s.checkpoints, []) :=
    fun l => checkpointPass_inactive s.player.rect s.checkpoints l h2
  simp only [Level.update, Level.updateT, emptyEventInfo_dt,
    emptyEventInfo_events, emptyEventInfo_mouse_pos, emptyEventInfo_mouse_press]
  rw [player_update_zero]
  rw [deathBranch_rect]
  rw [hcp, hloop]
  rw [map_id_of (Enemy.update 0) enemy_update_zero]
  simp only [transition_update_zero]
  simp only [unlockLoop, SoundIcon.update, Bool.false_eq_true, if_false,
    List.append_nil, Option.toList, camera_adjust_zero, explosion_update_zero]
  cases halive : (if s.player.y > 2000 then
      ({ s.player with alive := false } : Player) else s.player).alive <;>
    simp [halive, emptyEventInfo]

/-- Resyncing a portal twice equals resyncing it once. -/
theorem resetPortal_idem (d : Dimensions) (p : Portal) :
    resetPortal d (resetPortal d p) = resetPortal d p := by
  simp [resetPortal]

/-- Recomputing a note's proximity flag against the same rectangle twice
equals recomputing it once. -/
theorem note_update_idem (r : Rect) (n : Note) :
    Note.update r (Note.update r n) = Note.update r n := by
  simp [Note.update]

/-- Recomputing a button's hover flag against the same mouse state twice
equals recomputing it once. -/
theorem button_update_idem (m : Int × Int) (mp : Bool) (b : Button) :
    Button.update m mp (Button.update m mp b) = Button.update m mp b := by
  simp [Button.update]

/-- Retriggering a special tile against the same player twice equals
triggering it once. -/
theorem special_update_idem (pl : Player) (st : SpecialTile) :
    SpecialTile.update pl (SpecialTile.update pl st) =
      SpecialTile.update pl st := by
  cases htr : st.triggered <;>
    cases hco : st.rect.colliderect pl.rect <;>
      simp [SpecialTile.update, htr, hco]

/-- C10 counterexample state: one live particle. -/
def c10ExampleState : LevelState :=
  { baseState with
      particles :=
        [{ pos := (0, 0), vel := (0, -3/2), alpha := 255, alpha_speed := 3,
           lifespan := 5, text := "x" }] }

/-- C10 is false as stated: with a live particle, a second update with an
empty event list and dt = 0 still advances the particle by one tick, so the
two observable states differ. -/
theorem c10_update_not_idempotent_cex :
    Level.update emptyEventInfo (Level.update emptyEventInfo c10ExampleState) ≠
      Level.update emptyEventInfo c10ExampleState := by
  intro h
  exact absurd (congrArg (fun st : LevelState =>
    st.particles.map (fun p => p.lifespan)) h) (by decide)

/-- C10 amended: an update with an empty event list and dt = 0 is idempotent
on every state with no live particles, no pending checkpoint capture and no
portal reporting a dimension change; the particle manager (and the
checkpoint capture and portal switch paths) are exactly the subsystems that
advance regardless of dt. -/
theorem c10_idempotent_when_quiet (s : LevelState)
    (h1 : s.particles = [])
    (h2 : ∀ c ∈ s.checkpoints, c.text_spawned = true ∨
      c.rect.colliderect s.player.rect = false)
    (h3 : ∀ p ∈ s.portals, p.dimension_change = false) :
    Level.update emptyEventInfo (Level.update emptyEventInfo s) =
      Level.update emptyEventInfo s := by
  have hs1 := update_empty_spec s h2 h3
  have h2' : ∀ c ∈ (Level.update emptyEventInfo s).checkpoints,
      c.text_spawned = true ∨
      c.rect.colliderect (Level.update emptyEventInfo s).player.rect =
        false := by
    rw [hs1]
    simpa [deathBranch_rect] using h2
  have h3' : ∀ p ∈ (Level.update emptyEventInfo s).portals,
      p.dimension_change = false := by
    rw [hs1]
    intro p hp
    obtain ⟨q, _, hq⟩ := List.mem_map.mp hp
    rw [← hq]
    simp [resetPortal]
  have hs2 := update_empty_spec (Level.update emptyEventInfo s) h2' h3'
  rw [hs2, hs1]
  by_cases hdeath : 2000 < s.player.pos.2
  · simp [hdeath, h1, Player.y, Player.rect, BackGroundEffect.update,
      ParticleManager.update, emptyEventInfo, resetPortal_idem,
      note_update_idem, button_update_idem, special_update_idem, filter_idem]
  · cases halive : s.player.alive <;>
      simp [hdeath, halive, h1, Player.y, Player.rect, BackGroundEffect.update,
        ParticleManager.update, emptyEventInfo, resetPortal_idem,
        note_update_idem, button_update_idem, special_update_idem, filter_idem]

/-- C10 amendment witness: idempotence of the idle-frame update at a
concrete quiet state. -/
theorem c10_idempotent_witness :
    baseState.particles = [] ∧
    (∀ c ∈ baseState.checkpoints, c.text_spawned = true ∨
      c.rect.colliderect baseState.player.rect = false) ∧
    (∀ p ∈ baseState.portals, p.dimension_change = false) ∧
    Level.update emptyEventInfo (Level.update emptyEventInfo baseState) =
      Level.update emptyEventInfo baseState :=
  ⟨rfl, by decide, by decide,
   c10_idempotent_when_quiet baseState rfl (by decide) (by decide)⟩

end Unnamed
